import Mathlib

/-!
Shallow embedding of the go-github-ratelimit repository (v2 packages
`github_primary_ratelimit` and `github_secondary_ratelimit`), used to check
the natural-language specification against the code.

Modelling conventions:
* Durations and instants are `Int` nanoseconds, mirroring Go's
  `time.Duration` / `time.Time` (whole-nanosecond resolution).
* `time.Now()` is passed explicitly: each clock read in the source becomes
  one explicit instant parameter, in source order.
* HTTP headers are an association list; `Header.Get` is case-insensitive
  lookup, mirroring Go's canonical-MIME-key behaviour for ASCII keys.
* The JSON decoding performed by `json.Unmarshal` (library code, out of
  scope) is passed as an oracle `parse : String → Option SecondaryRateLimitBody`;
  `none` stands for a body-read or unmarshal error.
* Go callbacks are nilable function pointers; they are modelled as
  `Option Callback` with `Callback := Nat` an abstract tag, and an invocation
  is recorded as an event (the source's `triggerCallback` helpers return
  without calling anything when the callback is nil, so no event is
  recorded in that case).
* Goroutines (the primary reset timer) and locks are outside the
  sequential embedding; the per-call logic is modelled exactly.
-/

/-- Go `strings.HasPrefix` on the underlying character lists. -/
def listIsPre : List Char → List Char → Bool
  | [], _ => true
  | _ :: _, [] => false
  | a :: as, b :: bs => a == b && listIsPre as bs

/-- Go `strings.HasPrefix s pre`. -/
def strHasPre (s pre : String) : Bool :=
  listIsPre pre.data s.data

/-- Go `strings.HasSuffix s suf`. -/
def strHasSuf (s suf : String) : Bool :=
  listIsPre suf.data.reverse s.data.reverse

/-- ASCII-lowered character list of a string, used for the case-insensitive
header-key comparison implied by Go's canonical MIME header keys. -/
def lowerChars (s : String) : List Char :=
  s.data.map Char.toLower

/-- Header model: an association list of key/value pairs, `none` standing for
a nil `http.Header` map. -/
abbrev Header := Option (List (String × String))

/-- Go `http.Header.Get`: case-insensitive lookup, `""` when absent or when
the header map is nil. -/
def headerGet (h : Header) (key : String) : String :=
  match h with
  | none => ""
  | some entries => go entries
where go : List (String × String) → String
  | [] => ""
  | (k, v) :: rest => if lowerChars k = lowerChars key then v else go rest

/-- Decimal digit value, `none` for a non-digit. -/
def digitVal (c : Char) : Option Nat :=
  if '0' ≤ c ∧ c ≤ '9' then some (c.toNat - '0'.toNat) else none

/-- Accumulate decimal digits; fails on any non-digit. -/
def digitsToNatAux : Nat → List Char → Option Nat
  | acc, [] => some acc
  | acc, c :: cs =>
    match digitVal c with
    | none => none
    | some v => digitsToNatAux (acc * 10 + v) cs

/-- A non-empty run of decimal digits as a `Nat`. -/
def digitsToNat : List Char → Option Nat
  | [] => none
  | l => digitsToNatAux 0 l

/-- Shape-checking phase of Go `strconv.ParseInt(s, 10, 64)`: optional sign followed
by at least one digit; no range check. -/
def parseIntCore : List Char → Option Int
  | '+' :: rest => (digitsToNat rest).map Int.ofNat
  | '-' :: rest => (digitsToNat rest).map (fun n => -(Int.ofNat n))
  | rest => (digitsToNat rest).map Int.ofNat

/-- Go `strconv.ParseInt(s, 10, 64)`: `none` on a malformed input or a 64-bit range
error. -/
def parseInt64 (s : String) : Option Int :=
  match parseIntCore s.data with
  | none => none
  | some n => if -(2 ^ 63) ≤ n ∧ n ≤ 2 ^ 63 - 1 then some n else none

/-- Go `strconv.Atoi(s)` with the error ignored (`v, _ := strconv.Atoi(s)`):
yields `0` on a malformed input and the clamped 64-bit value on a range error,
exactly as the discarded-error pattern does in Go. -/
def atoiIgnoreErr (s : String) : Int :=
  match parseIntCore s.data with
  | none => 0
  | some n =>
    if n > 2 ^ 63 - 1 then 2 ^ 63 - 1
    else if n < -(2 ^ 63) then -(2 ^ 63)
    else n

/-- `httpHeaderIntValue` from `github_secondary_ratelimit/detect.go`:
empty value or parse failure is reported as `none` (Go: `(0, false)`). -/
def httpHeaderIntValue (h : Header) (key : String) : Option Int :=
  let val := headerGet h key
  if val == "" then none
  else parseInt64 val

/-! ## Category resolver (`github_primary_ratelimit/category.go`) -/

/-- `ResourceCategory` is a string type in the source. -/
abbrev ResourceCategory := String

def ResourceCategoryCore : ResourceCategory := "core"

def ResourceCategorySearch : ResourceCategory := "search"

def ResourceCategoryCodeSearch : ResourceCategory := "code_search"

def ResourceCategoryGraphQL : ResourceCategory := "graphql"

def ResourceCategorySourceImport : ResourceCategory := "source_import"

def ResourceCategoryAuditLog : ResourceCategory := "audit_log"

def ResourceCategoryIntegrationManifest : ResourceCategory := "integration_manifest"

def ResourceCategoryDependencySnapshots : ResourceCategory := "dependency_snapshots"

def ResourceCategoryCodeScanningUpload : ResourceCategory := "code_scanning_upload"

def ResourceCategoryActionsRunnerRegistration : ResourceCategory := "actions_runner_registration"

def ResourceCategoryScim : ResourceCategory := "scim"

/-- `GetAllCategories` from `category.go` (the construction-time enumeration;
`audit_log_streaming` is deliberately not listed there). -/
def GetAllCategories : List ResourceCategory :=
  [ResourceCategoryCore, ResourceCategorySearch, ResourceCategoryCodeSearch,
   ResourceCategoryGraphQL, ResourceCategorySourceImport, ResourceCategoryAuditLog,
   ResourceCategoryIntegrationManifest, ResourceCategoryDependencySnapshots,
   ResourceCategoryCodeScanningUpload, ResourceCategoryActionsRunnerRegistration,
   ResourceCategoryScim]

/-- `parseCategory` from `category.go`: the ordered `switch` over
method-agnostic path patterns, then the POST-only patterns, defaulting to
`core`. -/
def parseCategory (method path : String) : ResourceCategory :=
  if strHasPre path "/search/code" then ResourceCategoryCodeSearch
  else if strHasPre path "/search" then ResourceCategorySearch
  else if strHasPre path "/graphql" then ResourceCategoryGraphQL
  else if strHasPre path "/repos/" && strHasSuf path "/import" then ResourceCategorySourceImport
  else if strHasSuf path "/audit_log" then ResourceCategoryAuditLog
  else if method == "POST" then
    if strHasPre path "/app/manfiests/" && strHasSuf path "/conversions" then
      ResourceCategoryIntegrationManifest
    else if strHasPre path "/repos/" && strHasSuf path "/dependency-graph/snapshots" then
      ResourceCategoryDependencySnapshots
    else if strHasPre path "/repos/" && strHasSuf path "/code-scanning/sarifs" then
      ResourceCategoryCodeScanningUpload
    else if strHasPre path "/orgs/" && strHasSuf path "/actions/runners" then
      ResourceCategoryActionsRunnerRegistration
    else if strHasPre path "/scim" then ResourceCategoryScim
    else ResourceCategoryCore
  else ResourceCategoryCore

/-! ## Data model: state, configurations, options, request, response -/

/-- Abstract tag standing for a user callback function value (Go callbacks are
nilable function pointers; only identity/presence matters here). -/
abbrev Callback := Nat

/-- The primary rate-limit state (`RateLimitState` in the source): a map from
category to an atomic optional reset instant (`SecondsSinceEpoch`, whole
seconds). Modelled as an association list with the construction-time keys. -/
abbrev RateLimitState := List (ResourceCategory × Option Int)

/-- Go map lookup `m[category]`, returning the slot when the key exists. -/
def assocLookup : RateLimitState → ResourceCategory → Option (Option Int)
  | [], _ => none
  | (k, v) :: rest, key => if k == key then some v else assocLookup rest key

/-- `atomic.Pointer.Store` on the slot of an existing key (Go map value
update through the per-key atomic pointer; the key set never changes). -/
def assocStore : RateLimitState → ResourceCategory → Option Int → RateLimitState
  | [], _, _ => []
  | (k, v) :: rest, key, nv =>
    if k == key then (k, nv) :: rest else (k, v) :: assocStore rest key nv

/-- `NewRateLimitState` from `ratelimit_state.go`: one empty atomic slot per
given category. -/
def NewRateLimitState (categories : List ResourceCategory) : RateLimitState :=
  categories.map (fun c => (c, none))

/-- Primary-limiter `Config` (`github_primary_ratelimit/config.go`). The Go
struct holds a `*RateLimitState` pointer; the pointed-to state is inlined
here (claims never alias two configs to one state). The field name
`onReuqestPrevented` keeps the source's spelling. -/
structure PrimaryConfig where
  state : RateLimitState
  bypassLimit : Bool
  onLimitReached : Option Callback
  onReuqestPrevented : Option Callback
  onLimitReset : Option Callback
  onUnknownCategory : Option Callback
deriving Repr, DecidableEq

/-- A primary `Option` (`type Option func(*Config)`); the `Option _` wrapper
models a possibly-nil entry in the options slice. -/
abbrev PrimaryOption := PrimaryConfig → PrimaryConfig

/-- Secondary-limiter `Config` (`github_secondary_ratelimit/config.go`). -/
structure SecondaryConfig where
  singleSleepLimit : Option Int
  totalSleepLimit : Option Int
  onLimitDetected : Option Callback
  onSingleLimitExceeded : Option Callback
  onTotalLimitExceeded : Option Callback
deriving Repr, DecidableEq

/-- A secondary `Option` (`type Option func(*Config)`). -/
abbrev SecondaryOption := SecondaryConfig → SecondaryConfig

/-- URL model: `Path` is the decoded path, `RawPath` the encoded-path hint
(empty unless the URL needed escaping), as in Go `net/url.URL`. -/
structure URL where
  path : String
  rawPath : String

/-- Request model: method, URL and the two per-request override lists carried
in the request context (`GetConfigOverrides`); `none` = no overrides stored,
`some opts` = an override slice (possibly empty, possibly with nil entries). -/
structure HttpRequest where
  method : String
  url : URL
  primaryOverrides : Option (List (Option PrimaryOption))
  secondaryOverrides : Option (List (Option SecondaryOption))

/-- Response body of a secondary-limit response
(`SecondaryRateLimitBody` in `detect.go`). -/
structure SecondaryRateLimitBody where
  message : String
  documentUrl : String
deriving Repr, DecidableEq

/-- Response model: status text, status code, headers, raw body bytes and the
request the response answers (set by `NewErrorResponse`). -/
structure HttpResponse where
  status : String
  statusCode : Int
  header : Header
  body : String
  request : Option HttpRequest

/-! ## Secondary response classifier (`github_secondary_ratelimit/detect.go`) -/

def HeaderRetryAfter : String := "retry-after"

def HeaderXRateLimitReset : String := "x-ratelimit-reset"

def HeaderXRateLimitRemaining : String := "x-ratelimit-remaining"

def SecondaryRateLimitMessage : String := "You have exceeded a secondary rate limit"

def DocumentationSuffixes : List String :=
  ["secondary-rate-limits", "#abuse-rate-limits"]

/-- `HasSecondaryRateLimitSuffix` from `detect.go`. -/
def HasSecondaryRateLimitSuffix (documentationUrl : String) : Bool :=
  DocumentationSuffixes.any (fun suffix => strHasSuf documentationUrl suffix)

/-- `SecondaryRateLimitBody.IsSecondaryRateLimit` from `detect.go`. -/
def SecondaryRateLimitBody.IsSecondaryRateLimit (s : SecondaryRateLimitBody) : Bool :=
  strHasPre s.message SecondaryRateLimitMessage || HasSecondaryRateLimitSuffix s.documentUrl

/-- `LimitStatusCodes` from `detect.go`: 403 Forbidden and 429 Too Many
Requests. -/
def LimitStatusCodes : List Int := [403, 429]

/-- `isSecondaryRateLimit` from `detect.go`. `parse` is the
read-then-`json.Unmarshal` oracle; `none` covers both a body-read error and
an unmarshal error (either demotes the response to "not a secondary limit").
The body is restored byte-identically after reading, so the response value is
unchanged. -/
def isSecondaryRateLimit (parse : String → Option SecondaryRateLimitBody)
    (resp : HttpResponse) : Bool :=
  if !(LimitStatusCodes.contains resp.statusCode) then false
  else match resp.header with
    | none => false
    | some _ =>
      match httpHeaderIntValue resp.header HeaderXRateLimitRemaining with
      | some 0 => false
      | _ =>
        match parse resp.body with
        | none => false
        | some body => body.IsSecondaryRateLimit

/-- `parseRetryAfter` from `detect.go`: a positive integer number of seconds
added to `now`. -/
def parseRetryAfter (now : Int) (header : Header) : Option Int :=
  match httpHeaderIntValue header HeaderRetryAfter with
  | none => none
  | some retryAfterSeconds =>
    if retryAfterSeconds ≤ 0 then none
    else some (now + retryAfterSeconds * 1000000000)

/-- `parseXRateLimitReset` from `detect.go`: positive Unix seconds since
epoch (`time.Unix(s, 0)` = `s` whole seconds). -/
def parseXRateLimitReset (resp : HttpResponse) : Option Int :=
  match httpHeaderIntValue resp.header HeaderXRateLimitReset with
  | none => none
  | some secondsSinceEpoch =>
    if secondsSinceEpoch ≤ 0 then none
    else some (secondsSinceEpoch * 1000000000)

/-- `parseSecondaryLimitTime` from `detect.go`: classifier gate, then
`retry-after`, then `x-ratelimit-reset`; a missing/malformed pair yields
`none` (the documented 60-second default backoff is explicitly deferred). -/
def parseSecondaryLimitTime (now : Int) (parse : String → Option SecondaryRateLimitBody)
    (resp : HttpResponse) : Option Int :=
  if !(isSecondaryRateLimit parse resp) then none
  else match parseRetryAfter now resp.header with
    | some resetTime => some resetTime
    | none =>
      match parseXRateLimitReset resp with
      | some resetTime => some resetTime
      | none => none

/-! ## Secondary configuration and options
(`github_secondary_ratelimit/config.go`, `options.go`) -/

/-- `ApplyOptions` from `config.go`: apply in order, skipping nil entries. -/
def SecondaryConfig.ApplyOptions (c : SecondaryConfig)
    (opts : List (Option SecondaryOption)) : SecondaryConfig :=
  opts.foldl (fun c o => match o with | none => c | some f => f c) c

/-- The zero `Config` value (`var config Config`). -/
def SecondaryConfig.zero : SecondaryConfig :=
  { singleSleepLimit := none, totalSleepLimit := none, onLimitDetected := none,
    onSingleLimitExceeded := none, onTotalLimitExceeded := none }

/-- `newConfig` from `config.go`. -/
def SecondaryConfig.newConfig (opts : List (Option SecondaryOption)) : SecondaryConfig :=
  SecondaryConfig.zero.ApplyOptions opts

/-- `Config.IsAboveSingleSleepLimit` from `config.go`. -/
def SecondaryConfig.IsAboveSingleSleepLimit (c : SecondaryConfig) (sleepTime : Int) : Bool :=
  match c.singleSleepLimit with
  | none => false
  | some limit => sleepTime > limit

/-- `Config.IsAboveTotalSleepLimit` from `config.go`: note the comparison
uses the raw `sleepTime`, not the smoothed one. -/
def SecondaryConfig.IsAboveTotalSleepLimit (c : SecondaryConfig)
    (sleepTime totalSleepTime : Int) : Bool :=
  match c.totalSleepLimit with
  | none => false
  | some limit => totalSleepTime + sleepTime > limit

/-- `WithLimitDetectedCallback` from `options.go`. -/
def WithLimitDetectedCallback (callback : Option Callback) : SecondaryOption :=
  fun c => { c with onLimitDetected := callback }

/-- `WithSingleSleepLimit` from `options.go`. -/
def WithSingleSleepLimit (limit : Int) (callback : Option Callback) : SecondaryOption :=
  fun c => { c with singleSleepLimit := some limit, onSingleLimitExceeded := callback }

/-- `WithNoSleep` from `options.go`, verbatim: the closure evaluates
`WithSingleSleepLimit(0, callback)` and discards the resulting option without
applying it to `c`. -/
def WithNoSleep (callback : Option Callback) : SecondaryOption :=
  fun c =>
    let _unused := WithSingleSleepLimit 0 callback
    c

/-- `WithTotalSleepLimit` from `options.go`. -/
def WithTotalSleepLimit (limit : Int) (callback : Option Callback) : SecondaryOption :=
  fun c => { c with totalSleepLimit := some limit, onTotalLimitExceeded := callback }

/-- `SecondaryRateLimiter.getRequestConfig` from `sleep.go`: no stored
overrides means the base config is used directly (zero-copy); otherwise the
overrides are applied to a shallow copy. -/
def SecondaryRateLimiter.getRequestConfig (config : SecondaryConfig)
    (request : HttpRequest) : SecondaryConfig :=
  match request.secondaryOverrides with
  | none => config
  | some overrides => config.ApplyOptions overrides

/-! ## Secondary limiter state machine (`github_secondary_ratelimit/sleep.go`) -/

/-- The mutable fields of `SecondaryRateLimiter` guarded by the RW lock:
`resetTime *time.Time` and `totalSleepTime time.Duration`. -/
structure SecState where
  resetTime : Option Int
  totalSleepTime : Int
deriving Repr, DecidableEq

/-- One secondary-limiter callback invocation (`triggerCallback` reached with
a non-nil callback). -/
inductive SecEvent where
  | limitDetected
  | singleLimitExceeded
  | totalLimitExceeded
deriving Repr, DecidableEq

/-- `triggerCallback` from `sleep.go`: returns immediately when the callback
is nil, so no invocation is recorded in that case. -/
def triggerSecondary (callback : Option Callback) (event : SecEvent) : List SecEvent :=
  match callback with
  | none => []
  | some _ => [event]

/-- `smoothSleepTime` from `sleep.go`, for `Int`-nanosecond durations:
`sleepTime.Milliseconds()` is the exact integer division by 10^6
(truncated toward zero), and `time.Duration(sleepTime.Seconds() + 1)` — the
float64 seconds value plus one, truncated toward zero — equals the truncated
division of `sleepTime + 10^9` by `10^9` (the float64 round-trip is exact for
every duration the remote can express; `Int` keeps the embedding total). -/
def smoothSleepTime (sleepTime : Int) : Int :=
  if Int.tdiv sleepTime 1000000 = 0 then sleepTime
  else Int.tdiv (sleepTime + 1000000000) 1000000000 * 1000000000

/-- `currentSleepDurationUnlocked` from `sleep.go`; `now` is the instant of
its `time.Until` clock read. -/
def currentSleepDurationUnlocked (st : SecState) (now : Int) : Int :=
  match st.resetTime with
  | none => 0
  | some resetTime => resetTime - now

/-- Result of `updateRateLimit`: the returned `needRetry`, the state after
the call, and the callback invocations performed under the lock. -/
structure SecUpdateResult where
  needRetry : Bool
  state : SecState
  events : List SecEvent
deriving Repr, DecidableEq

/-- `updateRateLimit` from `sleep.go`. The three clock reads are passed in
source order: `now0` for the quick `time.Now().After(secondaryLimit)` check,
`now1` for the in-lock `currentSleepDurationUnlocked`, `now2` for
`time.Until(secondaryLimit)`. -/
def updateRateLimit (baseConfig : SecondaryConfig) (request : HttpRequest)
    (st : SecState) (secondaryLimit : Int) (now0 now1 now2 : Int) : SecUpdateResult :=
  -- quick check without the lock: maybe the secondary limit just passed
  if secondaryLimit < now0 then { needRetry := true, state := st, events := [] }
  -- check before update if there is already an active rate limit
  else if 0 < currentSleepDurationUnlocked st now1 then
    { needRetry := true, state := st, events := [] }
  else
    -- check if the limit happened to have passed while waiting for the lock
    let sleepDuration := secondaryLimit - now2
    if sleepDuration ≤ 0 then { needRetry := true, state := st, events := [] }
    else
      let config := SecondaryRateLimiter.getRequestConfig baseConfig request
      if config.IsAboveSingleSleepLimit sleepDuration then
        { needRetry := false, state := st,
          events := triggerSecondary config.onSingleLimitExceeded SecEvent.singleLimitExceeded }
      else if config.IsAboveTotalSleepLimit sleepDuration st.totalSleepTime then
        { needRetry := false, state := st,
          events := triggerSecondary config.onTotalLimitExceeded SecEvent.totalLimitExceeded }
      else
        -- a legitimate new limit
        { needRetry := true,
          state := { resetTime := some secondaryLimit,
                     totalSleepTime := st.totalSleepTime + smoothSleepTime sleepDuration },
          events := triggerSecondary config.onLimitDetected SecEvent.limitDetected }

/-- Outcome of one pass of `SecondaryRateLimiter.RoundTrip` (the tail
recursion `return t.RoundTrip(request)` is represented by `retry`; the
pre-wait sleep changes no state). -/
inductive SecStepResult where
  | done (resp : HttpResponse) (st : SecState) (events : List SecEvent)
  | transportFailed (e : String) (st : SecState)
  | retry (st : SecState) (events : List SecEvent)

/-- One pass of `SecondaryRateLimiter.RoundTrip` from `sleep.go`:
pre-wait (state unchanged), forward to `Base`, classify, update, and either
return the response or signal a retry. `nowDetect` is the clock read inside
`parseRetryAfter`; `now0 now1 now2` are the reads inside `updateRateLimit`. -/
def SecondaryRateLimiter.roundTripOnce (config : SecondaryConfig)
    (base : HttpRequest → Except String HttpResponse)
    (parse : String → Option SecondaryRateLimitBody) (st : SecState)
    (request : HttpRequest) (nowDetect now0 now1 now2 : Int) : SecStepResult :=
  match base request with
  | Except.error e => SecStepResult.transportFailed e st
  | Except.ok resp =>
    match parseSecondaryLimitTime nowDetect parse resp with
    | none => SecStepResult.done resp st []
    | some secondaryLimit =>
      let r := updateRateLimit config request st secondaryLimit now0 now1 now2
      if r.needRetry then SecStepResult.retry r.state r.events
      else SecStepResult.done resp r.state r.events

/-! ## Primary response parsing (`github_primary_ratelimit/http_response.go`) -/

def ResponseHeaderKeyRemaining : String := "x-ratelimit-remaining"

def ResponseHeaderKeyReset : String := "x-ratelimit-reset"

def ResponseHeaderKeyCategory : String := "x-ratelimit-resource"

/-- `PrimaryLimitStatusCodes` from `http_response.go`. -/
def PrimaryLimitStatusCodes : List Int := [403, 429]

/-- `ParsedResponse.GetCatgory` (source spelling) from `http_response.go`. -/
def ParsedResponse.GetCatgory (resp : HttpResponse) : ResourceCategory :=
  headerGet resp.header ResponseHeaderKeyCategory

/-- `ParsedResponse.limitReached` from `http_response.go`: rate-limit status
and the remaining header literally equal to the string "0". -/
def ParsedResponse.limitReached (resp : HttpResponse) : Bool :=
  if !(PrimaryLimitStatusCodes.contains resp.statusCode) then false
  else if headerGet resp.header ResponseHeaderKeyRemaining != "0" then false
  else true

/-- `ParsedResponse.GetResetTime` from `http_response.go`: when the limit is
reached, the reset header is parsed with `strconv.Atoi` and the error is
discarded (`seconds, _ := ...`), so a missing or malformed header yields the
value 0, not nil. Result in whole seconds since epoch (`SecondsSinceEpoch`). -/
def ParsedResponse.GetResetTime (resp : HttpResponse) : Option Int :=
  if !(ParsedResponse.limitReached resp) then none
  else some (atoiIgnoreErr (headerGet resp.header ResponseHeaderKeyReset))

/-- `SecondsSinceEpoch.AsTime` from `ratelimit_state.go`:
`time.Unix(s, 0)` as nanoseconds since epoch. -/
def SecondsSinceEpoch.AsTime (s : Int) : Int :=
  s * 1000000000

/-- `NewErrorResponse` from `http_response.go`: status 403 Forbidden, the two
rate-limit headers, an empty body, and the originating request. -/
def NewErrorResponse (request : HttpRequest) (category : ResourceCategory) : HttpResponse :=
  { status := "Forbidden",
    statusCode := 403,
    header := some [(ResponseHeaderKeyRemaining, "0"), (ResponseHeaderKeyCategory, category)],
    body := "",
    request := some request }

/-! ## Primary state and interceptor
(`ratelimit_state.go`, `github_primary_ratelimit` package files) -/

/-- One primary-limiter callback invocation (a `Trigger...` helper reached
with a non-nil callback; the helpers return without calling anything when the
callback is nil). -/
inductive PrimaryEvent where
  | limitReached
  | requestPrevented
  | limitReset
  | unknownCategory
deriving Repr, DecidableEq

/-- `Config.Trigger...` helpers from `config.go`. -/
def triggerPrimary (callback : Option Callback) (event : PrimaryEvent) : List PrimaryEvent :=
  match callback with
  | none => []
  | some _ => [event]

/-- `parseRequestCategory` from `category.go`: note the source reads
`request.URL.RawPath`, not `request.URL.Path`. -/
def parseRequestCategory (request : HttpRequest) : ResourceCategory :=
  parseCategory request.method request.url.rawPath

/-- `RateLimitState.GetResetTime` from `ratelimit_state.go`: a category
outside the map logs and returns nil; otherwise the atomic load of the slot. -/
def RateLimitState.GetResetTime (s : RateLimitState) (category : ResourceCategory) : Option Int :=
  match assocLookup s category with
  | none => none
  | some resetTime => resetTime

/-- Result of the synchronous part of `RateLimitState.Update`: the state
after the call, the returned reset time, and the callback invocations. -/
structure PrimaryUpdateResult where
  state : RateLimitState
  resetTime : Option Int
  events : List PrimaryEvent
deriving Repr

/-- `RateLimitState.Update` from `ratelimit_state.go`, synchronous part. The
`UpdateContainer` interface argument is passed as its two projections
`GetCatgory` / `GetResetTime`. A nil reset time updates nothing; an unknown
category triggers `onUnknownCategory` and stores nothing; otherwise the slot
is stored and the reset time returned. The spawned one-shot timer goroutine
(which later clears the slot and triggers `onLimitReset`) is asynchronous and
outside this sequential step. -/
def RateLimitState.Update (s : RateLimitState) (config : PrimaryConfig)
    (category : ResourceCategory) (newResetTime : Option Int) : PrimaryUpdateResult :=
  match newResetTime with
  | none => { state := s, resetTime := none, events := [] }
  | some resetTime =>
    match assocLookup s category with
    | none =>
      { state := s, resetTime := none,
        events := triggerPrimary config.onUnknownCategory PrimaryEvent.unknownCategory }
    | some _ =>
      { state := assocStore s category (some resetTime), resetTime := some resetTime,
        events := [] }

/-- `ApplyOptions` from primary `config.go`. -/
def PrimaryConfig.ApplyOptions (c : PrimaryConfig)
    (opts : List (Option PrimaryOption)) : PrimaryConfig :=
  opts.foldl (fun c o => match o with | none => c | some f => f c) c

/-- `PrimaryRateLimiter.getRequestConfig` from `github_primary_ratelimit.go`. -/
def PrimaryRateLimiter.getRequestConfig (config : PrimaryConfig)
    (request : HttpRequest) : PrimaryConfig :=
  match request.primaryOverrides with
  | none => config
  | some overrides => config.ApplyOptions overrides

/-- `RateLimitReachedError` from `github_primary_ratelimit.go`. -/
structure RateLimitReachedError where
  resetTime : Option Int
  request : Option HttpRequest
  response : Option HttpResponse
  category : ResourceCategory

/-- Result of `PrimaryRateLimiter.RoundTrip`: the returned response or
typed error (or pass-through transport error), whether the inner transport
was invoked, the state after the call, and the callback invocations. -/
structure PrimaryResult where
  resp : Option HttpResponse
  err : Option RateLimitReachedError
  transportErr : Option String
  baseInvoked : Bool
  state : RateLimitState
  events : List PrimaryEvent

/-- The forward-classify-update tail of `PrimaryRateLimiter.RoundTrip`
(steps after the gate): forward to `Base`, pass transport errors through,
classify the response, update the state, and convert a detected limit into
the typed error. -/
def PrimaryRateLimiter.forward (config : PrimaryConfig)
    (base : HttpRequest → Except String HttpResponse)
    (request : HttpRequest) (gateEvents : List PrimaryEvent) : PrimaryResult :=
  match base request with
  | Except.error e =>
    { resp := none, err := none, transportErr := some e, baseInvoked := true,
      state := config.state, events := gateEvents }
  | Except.ok resp =>
    let upd := RateLimitState.Update config.state config
      (ParsedResponse.GetCatgory resp) (ParsedResponse.GetResetTime resp)
    match upd.resetTime with
    | none =>
      { resp := some resp, err := none, transportErr := none, baseInvoked := true,
        state := upd.state, events := gateEvents ++ upd.events }
    | some rt =>
      { resp := none,
        err := some { resetTime := some (SecondsSinceEpoch.AsTime rt),
                      request := some request, response := some resp,
                      category := ParsedResponse.GetCatgory resp },
        transportErr := none, baseInvoked := true, state := upd.state,
        events := gateEvents ++ upd.events
          ++ triggerPrimary config.onLimitReached PrimaryEvent.limitReached }

/-- `PrimaryRateLimiter.RoundTrip` from `github_primary_ratelimit.go`:
resolve the effective config, resolve the category, gate on the stored reset
time (synthesize + typed error unless `bypassLimit`), otherwise forward via
`PrimaryRateLimiter.forward`. -/
def PrimaryRateLimiter.RoundTrip (config0 : PrimaryConfig)
    (base : HttpRequest → Except String HttpResponse)
    (request : HttpRequest) : PrimaryResult :=
  let config := PrimaryRateLimiter.getRequestConfig config0 request
  let category := parseRequestCategory request
  let resetTime := RateLimitState.GetResetTime config.state category
  match resetTime with
  | some rt =>
    let resp := NewErrorResponse request category
    let gateEvents := triggerPrimary config.onReuqestPrevented PrimaryEvent.requestPrevented
    if !config.bypassLimit then
      { resp := none,
        err := some { resetTime := some (SecondsSinceEpoch.AsTime rt), request := some request,
                      response := some resp, category := category },
        transportErr := none, baseInvoked := false, state := config.state,
        events := gateEvents }
    else
      PrimaryRateLimiter.forward config base request gateEvents
  | none => PrimaryRateLimiter.forward config base request []

/-! ## Shared sample objects used by witnesses and counterexamples -/

/-- A plain GET request with no context overrides. -/
def reqPlain : HttpRequest :=
  { method := "GET", url := { path := "/x", rawPath := "/x" },
    primaryOverrides := none, secondaryOverrides := none }

/-- A GET request for `/search` as produced by `url.Parse` on a typical URL:
`Path` is set, `RawPath` is empty because the path needed no escaping. -/
def reqSearch : HttpRequest :=
  { method := "GET", url := { path := "/search", rawPath := "" },
    primaryOverrides := none, secondaryOverrides := none }

/-- A JSON oracle that decodes every body to a genuine secondary-rate-limit
message body. -/
def parseSecondaryAlways : String → Option SecondaryRateLimitBody :=
  fun _ => some { message := "You have exceeded a secondary rate limit. Please wait.",
                  documentUrl := "" }

/-! ## Helper lemmas about `smoothSleepTime` -/

/-- On non-negative durations the truncated divisions in `smoothSleepTime`
coincide with Euclidean division. -/
theorem smoothSleepTime_eq_of_nonneg (d : Int) (h : 0 ≤ d) :
    smoothSleepTime d = if d / 1000000 = 0 then d else (d / 1000000000 + 1) * 1000000000 := by
  unfold smoothSleepTime
  rw [Int.tdiv_eq_ediv h (by norm_num), Int.tdiv_eq_ediv (by omega) (by norm_num)]
  rcases eq_or_ne (d / 1000000) 0 with h0 | h0
  · simp [h0]
  · simp only [h0, if_neg h0]
    congr 2
    omega

/-- `smoothSleepTime` never returns less than its argument (non-negative
case). -/
theorem smoothSleepTime_ge (d : Int) (h : 0 ≤ d) : d ≤ smoothSleepTime d := by
  rw [smoothSleepTime_eq_of_nonneg d h]
  rcases eq_or_ne (d / 1000000) 0 with h0 | h0
  · simp [h0]
  · simp only [h0, if_neg h0]
    omega

/-! ## C3: the sleep-smoothing function -/

/-- C3 counterexample: the claimed characterization of `smoothSleepTime`
fails at two concrete inputs. For d = 2s (whole-second remainder zero) the
claim predicts `smoothed(d) = d = 2s`, but the code yields 3s; for
d = 0.5ms (positive sub-second) the claim predicts 1s, but the code yields
d itself (the `Milliseconds() == 0` branch returns early). -/
theorem smoothSleepTime_claim_cex :
    smoothSleepTime 2000000000 = 3000000000 ∧ smoothSleepTime 2000000000 ≠ 2000000000 ∧
    smoothSleepTime 500000 = 500000 ∧ smoothSleepTime 500000 ≠ 1000000000 := by
  refine ⟨by decide, by decide, by decide, by decide⟩

/-- C3 (amended): for every positive duration d, `smoothSleepTime` returns
d itself when d is sub-millisecond (`Milliseconds() == 0`); otherwise it
returns one second more than the floor of d in whole seconds. Consequently
it equals 1s on sub-second d ≥ 1ms and equals the ceiling of d in whole
seconds when d is not a whole number of seconds, but on positive whole-second
d it returns d + 1s, not d. -/
theorem smoothSleepTime_characterization (d : Int) (hpos : 0 < d) :
    (d < 1000000 → smoothSleepTime d = d) ∧
    (1000000 ≤ d → smoothSleepTime d = (d / 1000000000 + 1) * 1000000000) ∧
    (1000000 ≤ d → d < 1000000000 → smoothSleepTime d = 1000000000) ∧
    (1000000000 ≤ d → d % 1000000000 = 0 → smoothSleepTime d = d + 1000000000) ∧
    (1000000 ≤ d → d % 1000000000 ≠ 0 →
      smoothSleepTime d = (d + 1000000000 - 1) / 1000000000 * 1000000000) := by
  rw [smoothSleepTime_eq_of_nonneg d (le_of_lt hpos)]
  refine ⟨fun h1 => ?_, fun h1 => ?_, fun h1 h2 => ?_, fun h1 h2 => ?_, fun h1 h2 => ?_⟩ <;>
    split_ifs with h0 <;> omega

/-- C3 witness: the amended characterization evaluated at d = 1.5s, 2s and
0.5ms. -/
theorem smoothSleepTime_characterization_witness :
    (0 : Int) < 1500000000 ∧
    smoothSleepTime 1500000000 = ((1500000000 : Int) + 1000000000 - 1) / 1000000000 * 1000000000 ∧
    smoothSleepTime 2000000000 = 2000000000 + 1000000000 ∧
    smoothSleepTime 500000 = 500000 :=
  ⟨by norm_num,
   (smoothSleepTime_characterization 1500000000 (by norm_num)).2.2.2.2 (by norm_num) (by decide),
   (smoothSleepTime_characterization 2000000000 (by norm_num)).2.2.2.1 (by norm_num) (by decide),
   (smoothSleepTime_characterization 500000 (by norm_num)).1 (by norm_num)⟩

/-! ## C9: the cumulative-sleep accounting never under-counts -/

/-- C9: for every non-negative duration d, `smoothSleepTime d ≥ d`; and in
`updateRateLimit`, whenever `totalSleepTime` changes at all it grows by the
smoothed candidate sleep, which is at least the actual remaining sleep
duration `secondaryLimit - now2`, so the accounting never under-counts. -/
theorem smoothSleepTime_no_undercount (d : Int) (h : 0 ≤ d) :
    d ≤ smoothSleepTime d ∧
    ∀ (cfg : SecondaryConfig) (req : HttpRequest) (st : SecState) (L n0 n1 n2 : Int),
      st.totalSleepTime ≤ (updateRateLimit cfg req st L n0 n1 n2).state.totalSleepTime ∧
      ((updateRateLimit cfg req st L n0 n1 n2).state.totalSleepTime ≠ st.totalSleepTime →
        st.totalSleepTime + (L - n2) ≤
          (updateRateLimit cfg req st L n0 n1 n2).state.totalSleepTime) := by
  refine ⟨smoothSleepTime_ge d h, fun cfg req st L n0 n1 n2 => ?_⟩
  simp only [updateRateLimit]
  split_ifs with h1 h2 h3 h4 h5 <;> try simp
  have hsm := smoothSleepTime_ge (L - n2) (by omega)
  constructor
  · omega
  · intro
    omega

/-- C9 witness: the theorem applied at d = 3 and at one concrete
`updateRateLimit` call. -/
theorem smoothSleepTime_no_undercount_witness :
    (3 : Int) ≤ smoothSleepTime 3 ∧
    (SecState.mk none 0).totalSleepTime ≤
      (updateRateLimit SecondaryConfig.zero reqPlain (SecState.mk none 0)
        1000000000 0 0 0).state.totalSleepTime :=
  ⟨(smoothSleepTime_no_undercount 3 (by norm_num)).1,
   ((smoothSleepTime_no_undercount 3 (by norm_num)).2 SecondaryConfig.zero reqPlain
     (SecState.mk none 0) 1000000000 0 0 0).1⟩

/-! ## C4: `WithNoSleep` versus `WithSingleSleepLimit(0, cb)` -/

/-- C4 failing input, evaluated: applying `WithNoSleep cb` (cb = callback
tag 1) leaves the configuration at its zero value — the closure builds the
`WithSingleSleepLimit(0, cb)` option and never applies it — whereas
`WithSingleSleepLimit 0 cb` sets `singleSleepLimit = 0` and
`onSingleLimitExceeded = cb`, so the two configurations differ, contradicting
both the spec and the function's own doc comment. -/
theorem WithNoSleep_discards_the_option :
    SecondaryConfig.newConfig [some (WithNoSleep (some 1))] = SecondaryConfig.zero ∧
    SecondaryConfig.newConfig [some (WithNoSleep (some 1))] ≠
      SecondaryConfig.newConfig [some (WithSingleSleepLimit 0 (some 1))] ∧
    (SecondaryConfig.newConfig [some (WithSingleSleepLimit 0 (some 1))]).singleSleepLimit
      = some 0 ∧
    (SecondaryConfig.newConfig [some (WithSingleSleepLimit 0 (some 1))]).onSingleLimitExceeded
      = some 1 := by
  refine ⟨by decide, by decide, by decide, by decide⟩

/-! ## C5: the category used by the interceptor -/

/-- C5 failing input, evaluated: for a GET request to `/search` as built by
`url.Parse` (`Path = "/search"`, `RawPath = ""`), `parseRequestCategory`
reads `URL.RawPath` and resolves `core`, while `parseCategory` applied to the
request's method and URL path resolves `search`. -/
theorem parseRequestCategory_reads_rawPath :
    parseRequestCategory reqSearch = ResourceCategoryCore ∧
    parseCategory reqSearch.method reqSearch.url.path = ResourceCategorySearch ∧
    reqSearch.url.path = "/search" ∧ reqSearch.url.rawPath = "" ∧
    ResourceCategoryCore ≠ ResourceCategorySearch := by
  refine ⟨by decide, by decide, by decide, by decide, by decide⟩

/-! ## C8: a limit detected while a cooldown is already active -/

/-- C8: when the remaining sleep duration is positive at the in-lock check
(`now1` is the clock read of `currentSleepDurationUnlocked`),
`updateRateLimit` leaves the state untouched, invokes no callback, and
reports that the request should be retried. (If the quick pre-lock check
fires first the result is the same.) -/
theorem updateRateLimit_active_cooldown_frame (cfg : SecondaryConfig) (req : HttpRequest)
    (st : SecState) (L n0 n1 n2 rt : Int)
    (hrt : st.resetTime = some rt) (hactive : 0 < rt - n1) :
    updateRateLimit cfg req st L n0 n1 n2 =
      { needRetry := true, state := st, events := [] } := by
  by_cases h1 : L < n0
  · simp [updateRateLimit, h1]
  · have h2 : 0 < currentSleepDurationUnlocked st n1 := by
      simp [currentSleepDurationUnlocked, hrt]
      omega
    simp [updateRateLimit, h1, h2]

/-- C8 witness: a concrete call with an active cooldown (reset at instant
100, checked at instant 50) and a fresh candidate limit at instant 200. -/
theorem updateRateLimit_active_cooldown_frame_witness :
    updateRateLimit SecondaryConfig.zero reqPlain (SecState.mk (some 100) 7) 200 40 50 50 =
      { needRetry := true, state := SecState.mk (some 100) 7, events := [] } :=
  updateRateLimit_active_cooldown_frame SecondaryConfig.zero reqPlain
    (SecState.mk (some 100) 7) 200 40 50 50 100 rfl (by norm_num)

/-! ## C2: the total-sleep-limit test -/

/-- A secondary config with a total sleep limit of 1.6s and both relevant
callbacks installed. -/
def cfgTotal16 : SecondaryConfig :=
  { singleSleepLimit := none, totalSleepLimit := some 1600000000,
    onLimitDetected := some 1, onSingleLimitExceeded := none,
    onTotalLimitExceeded := some 2 }

/-- C2 counterexample: with `totalSleepLimit = 1.6s`, accumulated sleep 0 and
candidate sleep d = 1.5s we have `0 + smoothed(d) = 2s > 1.6s`, so the claim
predicts `onTotalLimitExceeded`, no commit and no retry — but the code
compares the raw `0 + d = 1.5s ≤ 1.6s` and commits the cooldown, invokes
`onLimitDetected`, and retries. -/
theorem totalSleepLimit_check_claim_cex :
    (0 : Int) + smoothSleepTime 1500000000 > 1600000000 ∧
    updateRateLimit cfgTotal16 reqPlain (SecState.mk none 0) 1500000000 0 0 0 =
      { needRetry := true,
        state := SecState.mk (some 1500000000) 2000000000,
        events := [SecEvent.limitDetected] } := by
  refine ⟨by decide, by decide⟩

/-- C2 (amended): in `updateRateLimit`, with a candidate sleep
d = `secondaryLimit - now2` that is positive, no cooldown active, the quick
pre-lock check passed, the single-sleep test not firing, and the effective
configuration carrying `totalSleepLimit = lim` and a non-nil
`onTotalLimitExceeded`, the total-limit outcome — `onTotalLimitExceeded`
invoked, no cooldown committed, no retry — happens exactly when
`totalSleepTime + d > lim`, i.e. the raw candidate sleep is compared, not the
smoothed one; and in that case the surrounding `RoundTrip` pass returns the
original response. -/
theorem updateRateLimit_total_limit_iff (cfg : SecondaryConfig) (req : HttpRequest)
    (st : SecState) (L n0 n1 n2 lim : Int) (cb : Callback)
    (hq : ¬ L < n0)
    (hc : ¬ 0 < currentSleepDurationUnlocked st n1)
    (hd : 0 < L - n2)
    (hs : (SecondaryRateLimiter.getRequestConfig cfg req).IsAboveSingleSleepLimit (L - n2)
            = false)
    (ht : (SecondaryRateLimiter.getRequestConfig cfg req).totalSleepLimit = some lim)
    (hcb : (SecondaryRateLimiter.getRequestConfig cfg req).onTotalLimitExceeded = some cb) :
    ((updateRateLimit cfg req st L n0 n1 n2 =
        { needRetry := false, state := st, events := [SecEvent.totalLimitExceeded] })
      ↔ lim < st.totalSleepTime + (L - n2)) ∧
    ∀ (base : HttpRequest → Except String HttpResponse)
      (parse : String → Option SecondaryRateLimitBody) (resp : HttpResponse) (nowD : Int),
      base req = Except.ok resp →
      parseSecondaryLimitTime nowD parse resp = some L →
      lim < st.totalSleepTime + (L - n2) →
      SecondaryRateLimiter.roundTripOnce cfg base parse st req nowD n0 n1 n2 =
        SecStepResult.done resp st [SecEvent.totalLimitExceeded] := by
  have habove : (SecondaryRateLimiter.getRequestConfig cfg req).IsAboveTotalSleepLimit
      (L - n2) st.totalSleepTime = (decide (lim < st.totalSleepTime + (L - n2))) := by
    simp [SecondaryConfig.IsAboveTotalSleepLimit, ht]
  have hupd : updateRateLimit cfg req st L n0 n1 n2 =
      if lim < st.totalSleepTime + (L - n2) then
        { needRetry := false, state := st, events := [SecEvent.totalLimitExceeded] }
      else
        { needRetry := true,
          state := { resetTime := some L,
                     totalSleepTime := st.totalSleepTime + smoothSleepTime (L - n2) },
          events := triggerSecondary
            (SecondaryRateLimiter.getRequestConfig cfg req).onLimitDetected
            SecEvent.limitDetected } := by
    simp only [updateRateLimit, if_neg hq, if_neg hc, if_neg (by omega : ¬ L - n2 ≤ 0),
      hs, Bool.false_eq_true, if_neg (Bool.false_ne_true), habove, triggerSecondary, hcb]
    split_ifs with hx <;> simp_all [triggerSecondary]
  constructor
  · rw [hupd]
    constructor
    · intro heq
      by_contra hlt
      rw [if_neg hlt] at heq
      have hne := congrArg SecUpdateResult.needRetry heq
      simp at hne
    · intro hlt
      rw [if_pos hlt]
  · intro base parse resp nowD hbase hparse hlt
    simp only [SecondaryRateLimiter.roundTripOnce, hbase, hparse, hupd, if_pos hlt]
    simp

/-- C2 witness: the amended theorem applied at a concrete input where the
total limit (1.6s) is exceeded by the raw candidate sleep (1.7s): the update
refuses to sleep, invokes `onTotalLimitExceeded`, and the pass returns the
original response. -/
theorem updateRateLimit_total_limit_iff_witness :
    updateRateLimit cfgTotal16 reqPlain (SecState.mk none 0) 1700000000 0 0 0 =
      { needRetry := false, state := SecState.mk none 0,
        events := [SecEvent.totalLimitExceeded] } :=
  ((updateRateLimit_total_limit_iff cfgTotal16 reqPlain (SecState.mk none 0)
      1700000000 0 0 0 1600000000 2
      (by norm_num) (by decide) (by norm_num) (by decide) (by decide) (by decide)).1).mpr
    (by norm_num)

/-! ## C7: remaining = 0 is never classified as a secondary limit -/

/-- C7: whenever the `x-ratelimit-remaining` header value parses to the
integer 0, `isSecondaryRateLimit` returns false, for every JSON-decoding
oracle (hence regardless of the body's `message` and `documentation_url`). -/
theorem isSecondaryRateLimit_false_on_primary
    (parse : String → Option SecondaryRateLimitBody) (resp : HttpResponse)
    (h : httpHeaderIntValue resp.header HeaderXRateLimitRemaining = some 0) :
    isSecondaryRateLimit parse resp = false := by
  unfold isSecondaryRateLimit
  split
  · rfl
  · split
    · rfl
    · rw [h]
      rfl

/-- C7 witness: a 403 response carrying `x-ratelimit-remaining: 0` whose
body would decode to a genuine secondary-rate-limit message is still not
classified as a secondary limit. -/
theorem isSecondaryRateLimit_false_on_primary_witness :
    httpHeaderIntValue (some [("x-ratelimit-remaining", "0"), ("retry-after", "2")])
      HeaderXRateLimitRemaining = some 0 ∧
    isSecondaryRateLimit parseSecondaryAlways
      { status := "", statusCode := 403,
        header := some [("x-ratelimit-remaining", "0"), ("retry-after", "2")],
        body := "irrelevant", request := none } = false :=
  ⟨by decide,
   isSecondaryRateLimit_false_on_primary parseSecondaryAlways
     { status := "", statusCode := 403,
       header := some [("x-ratelimit-remaining", "0"), ("retry-after", "2")],
       body := "irrelevant", request := none } (by decide)⟩

/-! ## C10: categories outside the construction-time enumeration -/

/-- A primary config with a fresh default state and an `onUnknownCategory`
callback installed. -/
def cfgUnknownCb : PrimaryConfig :=
  { state := NewRateLimitState GetAllCategories, bypassLimit := false,
    onLimitReached := none, onReuqestPrevented := none, onLimitReset := none,
    onUnknownCategory := some 2 }

/-- C10 counterexample: `Update` called with the out-of-enumeration category
"rubbish" and a nil parsed reset time returns nil and stores nothing — but
invokes no callback at all (the nil-reset early return precedes the
category-existence check), although `onUnknownCategory` is installed and the
claim says it is invoked for every such call. -/
theorem update_unknown_category_silent_cex :
    (RateLimitState.Update (NewRateLimitState GetAllCategories) cfgUnknownCb
        "rubbish" none).events = [] ∧
    cfgUnknownCb.onUnknownCategory = some 2 ∧
    assocLookup (NewRateLimitState GetAllCategories) "rubbish" = none ∧
    ([] : List PrimaryEvent) ≠ [PrimaryEvent.unknownCategory] := by
  refine ⟨by decide, by decide, by decide, by decide⟩

/-- C10 (amended): for a category outside the state map, `GetResetTime`
returns nil (after logging) and does not modify the map, and `Update`
returns nil and stores nothing; `Update` triggers `onUnknownCategory`
exactly when the parsed reset time is non-nil — with a nil reset time it
returns before the category check and invokes nothing. -/
theorem unknown_category_safe (st : RateLimitState) (cat : ResourceCategory)
    (h : assocLookup st cat = none) :
    RateLimitState.GetResetTime st cat = none ∧
    ∀ (config : PrimaryConfig) (newResetTime : Option Int),
      (RateLimitState.Update st config cat newResetTime).state = st ∧
      (RateLimitState.Update st config cat newResetTime).resetTime = none ∧
      (RateLimitState.Update st config cat newResetTime).events =
        (match newResetTime with
         | none => []
         | some _ => triggerPrimary config.onUnknownCategory PrimaryEvent.unknownCategory) := by
  refine ⟨by simp [RateLimitState.GetResetTime, h], fun config newResetTime => ?_⟩
  cases newResetTime with
  | none => exact ⟨rfl, rfl, rfl⟩
  | some rt => simp [RateLimitState.Update, h]

/-- C10 witness: the amended theorem applied to the fresh default state and
the category "rubbish", with both a nil and a non-nil reset time. -/
theorem unknown_category_safe_witness :
    RateLimitState.GetResetTime (NewRateLimitState GetAllCategories) "rubbish" = none ∧
    (RateLimitState.Update (NewRateLimitState GetAllCategories) cfgUnknownCb
      "rubbish" (some 9)).state = NewRateLimitState GetAllCategories ∧
    (RateLimitState.Update (NewRateLimitState GetAllCategories) cfgUnknownCb
      "rubbish" (some 9)).resetTime = none ∧
    (RateLimitState.Update (NewRateLimitState GetAllCategories) cfgUnknownCb
      "rubbish" (some 9)).events = [PrimaryEvent.unknownCategory] :=
  have h := unknown_category_safe (NewRateLimitState GetAllCategories) "rubbish" (by decide)
  ⟨h.1, (h.2 cfgUnknownCb (some 9)).1, (h.2 cfgUnknownCb (some 9)).2.1,
   (h.2 cfgUnknownCb (some 9)).2.2⟩

/-! ## C1: the primary gate short-circuits with a typed error -/

/-- Properties of the synthesized `NewErrorResponse`: status 403, empty body,
`x-ratelimit-remaining: 0` and `x-ratelimit-resource` set to the category. -/
theorem NewErrorResponse_fields (req : HttpRequest) (cat : ResourceCategory) :
    (NewErrorResponse req cat).statusCode = 403 ∧
    (NewErrorResponse req cat).body = "" ∧
    headerGet (NewErrorResponse req cat).header ResponseHeaderKeyRemaining = "0" ∧
    headerGet (NewErrorResponse req cat).header ResponseHeaderKeyCategory = cat := by
  refine ⟨rfl, rfl, ?_, ?_⟩
  · simp [NewErrorResponse, headerGet, headerGet.go]
  · simp only [NewErrorResponse, headerGet, headerGet.go]
    rw [if_neg (by decide)]
    simp

/-- C1: when the effective configuration's slot for the request's resolved
category holds a reset instant and `bypassLimit` is not set, `RoundTrip`
returns the typed rate-limit-reached error carrying the request, the
synthesized response, the category and the reset instant, without invoking
the inner transport, and the synthesized response has status 403, an empty
body, `x-ratelimit-remaining: 0` and `x-ratelimit-resource` = category. -/
theorem primary_gate_short_circuits (cfg : PrimaryConfig)
    (base : HttpRequest → Except String HttpResponse) (req : HttpRequest) (rt : Int)
    (h1 : RateLimitState.GetResetTime (PrimaryRateLimiter.getRequestConfig cfg req).state
            (parseRequestCategory req) = some rt)
    (h2 : (PrimaryRateLimiter.getRequestConfig cfg req).bypassLimit = false) :
    PrimaryRateLimiter.RoundTrip cfg base req =
      { resp := none,
        err := some { resetTime := some (SecondsSinceEpoch.AsTime rt),
                      request := some req,
                      response := some (NewErrorResponse req (parseRequestCategory req)),
                      category := parseRequestCategory req },
        transportErr := none, baseInvoked := false,
        state := (PrimaryRateLimiter.getRequestConfig cfg req).state,
        events := triggerPrimary
          (PrimaryRateLimiter.getRequestConfig cfg req).onReuqestPrevented
          PrimaryEvent.requestPrevented } ∧
    (NewErrorResponse req (parseRequestCategory req)).statusCode = 403 ∧
    (NewErrorResponse req (parseRequestCategory req)).body = "" ∧
    headerGet (NewErrorResponse req (parseRequestCategory req)).header
      ResponseHeaderKeyRemaining = "0" ∧
    headerGet (NewErrorResponse req (parseRequestCategory req)).header
      ResponseHeaderKeyCategory = parseRequestCategory req := by
  refine ⟨?_, NewErrorResponse_fields req (parseRequestCategory req)⟩
  simp only [PrimaryRateLimiter.RoundTrip, h1, h2]
  rfl

/-- A primary config whose `core` slot holds reset second 5, with the
request-prevented callback installed. -/
def cfgCoreActive : PrimaryConfig :=
  { state := assocStore (NewRateLimitState GetAllCategories) ResourceCategoryCore (some 5),
    bypassLimit := false, onLimitReached := none, onReuqestPrevented := some 3,
    onLimitReset := none, onUnknownCategory := none }

/-- C1 witness: the gate theorem applied to a concrete request resolving to
`core` while the `core` slot holds reset second 5. -/
theorem primary_gate_short_circuits_witness :
    PrimaryRateLimiter.RoundTrip cfgCoreActive (fun _ => Except.error "unused") reqPlain =
      { resp := none,
        err := some { resetTime := some (SecondsSinceEpoch.AsTime 5),
                      request := some reqPlain,
                      response := some (NewErrorResponse reqPlain
                        (parseRequestCategory reqPlain)),
                      category := parseRequestCategory reqPlain },
        transportErr := none, baseInvoked := false,
        state := (PrimaryRateLimiter.getRequestConfig cfgCoreActive reqPlain).state,
        events := triggerPrimary
          (PrimaryRateLimiter.getRequestConfig cfgCoreActive reqPlain).onReuqestPrevented
          PrimaryEvent.requestPrevented } ∧
    (NewErrorResponse reqPlain (parseRequestCategory reqPlain)).statusCode = 403 ∧
    (NewErrorResponse reqPlain (parseRequestCategory reqPlain)).body = "" ∧
    headerGet (NewErrorResponse reqPlain (parseRequestCategory reqPlain)).header
      ResponseHeaderKeyRemaining = "0" ∧
    headerGet (NewErrorResponse reqPlain (parseRequestCategory reqPlain)).header
      ResponseHeaderKeyCategory = parseRequestCategory reqPlain :=
  primary_gate_short_circuits cfgCoreActive (fun _ => Except.error "unused") reqPlain 5
    (by decide) (by decide)

/-! ## C6: limit responses with missing or malformed reset headers -/

/-- A secondary-limit response (403, secondary body) with no headers beyond
an empty header map: neither `retry-after` nor `x-ratelimit-reset`. -/
def respSecondaryNoHeaders : HttpResponse :=
  { status := "", statusCode := 403, header := some [], body := "b", request := none }

/-- A primary rate-limit-status response carrying `x-ratelimit-remaining: 0`
and a category but no `x-ratelimit-reset` header. -/
def respPrimaryNoReset : HttpResponse :=
  { status := "", statusCode := 403,
    header := some [("x-ratelimit-remaining", "0"), ("x-ratelimit-resource", "core")],
    body := "", request := none }

/-- A primary config with a fresh default state and an `onLimitReached`
callback installed. -/
def cfgPrimaryFresh : PrimaryConfig :=
  { state := NewRateLimitState GetAllCategories, bypassLimit := false,
    onLimitReached := some 4, onReuqestPrevented := none, onLimitReset := none,
    onUnknownCategory := none }

/-- C6 counterexample: the primary interceptor does not pass through a
rate-limit-status response with `x-ratelimit-remaining: 0` and no
`x-ratelimit-reset` header. `GetResetTime` parses the missing header to 0
(the `Atoi` error is discarded), the state records reset second 0 for the
category, and `RoundTrip` returns the typed error with no response. -/
theorem primary_missing_reset_not_passed_through_cex :
    ParsedResponse.limitReached respPrimaryNoReset = true ∧
    headerGet respPrimaryNoReset.header ResponseHeaderKeyReset = "" ∧
    ParsedResponse.GetResetTime respPrimaryNoReset = some 0 ∧
    (PrimaryRateLimiter.RoundTrip cfgPrimaryFresh
      (fun _ => Except.ok respPrimaryNoReset) reqPlain).resp.isNone = true ∧
    (PrimaryRateLimiter.RoundTrip cfgPrimaryFresh
      (fun _ => Except.ok respPrimaryNoReset) reqPlain).err.isSome = true ∧
    (PrimaryRateLimiter.RoundTrip cfgPrimaryFresh
      (fun _ => Except.ok respPrimaryNoReset) reqPlain).state =
      assocStore (NewRateLimitState GetAllCategories) ResourceCategoryCore (some 0) := by
  refine ⟨by decide, by decide, by decide, by decide, by decide, by decide⟩

/-- C6 (amended): a secondary-limit response from which neither `retry-after`
nor `x-ratelimit-reset` yields a positive value is returned unchanged with no
state change and no callback; the primary interceptor, however, parses the
absent `x-ratelimit-reset` of a rate-limit-status response as 0, stores
epoch-second 0 in the (known) response category's slot, and returns the typed
rate-limit-reached error instead of passing the response through. -/
theorem missing_reset_headers_behavior
    (scfg : SecondaryConfig) (sbase : HttpRequest → Except String HttpResponse)
    (parse : String → Option SecondaryRateLimitBody) (st : SecState) (sreq : HttpRequest)
    (nowD n0 n1 n2 : Int) (sresp : HttpResponse)
    (hs1 : sbase sreq = Except.ok sresp)
    (hs2 : isSecondaryRateLimit parse sresp = true)
    (hs3 : parseRetryAfter nowD sresp.header = none)
    (hs4 : parseXRateLimitReset sresp = none)
    (pcfg : PrimaryConfig) (pbase : HttpRequest → Except String HttpResponse)
    (preq : HttpRequest) (presp : HttpResponse) (slot : Option Int)
    (hp1 : pbase preq = Except.ok presp)
    (hp2 : ParsedResponse.limitReached presp = true)
    (hp3 : headerGet presp.header ResponseHeaderKeyReset = "")
    (hp4 : RateLimitState.GetResetTime (PrimaryRateLimiter.getRequestConfig pcfg preq).state
             (parseRequestCategory preq) = none)
    (hp5 : assocLookup (PrimaryRateLimiter.getRequestConfig pcfg preq).state
             (ParsedResponse.GetCatgory presp) = some slot) :
    SecondaryRateLimiter.roundTripOnce scfg sbase parse st sreq nowD n0 n1 n2 =
      SecStepResult.done sresp st [] ∧
    ParsedResponse.GetResetTime presp = some 0 ∧
    PrimaryRateLimiter.RoundTrip pcfg pbase preq =
      { resp := none,
        err := some { resetTime := some (SecondsSinceEpoch.AsTime 0),
                      request := some preq, response := some presp,
                      category := ParsedResponse.GetCatgory presp },
        transportErr := none, baseInvoked := true,
        state := assocStore (PrimaryRateLimiter.getRequestConfig pcfg preq).state
                   (ParsedResponse.GetCatgory presp) (some 0),
        events := triggerPrimary (PrimaryRateLimiter.getRequestConfig pcfg preq).onLimitReached
                    PrimaryEvent.limitReached } := by
  have hsec : parseSecondaryLimitTime nowD parse sresp = none := by
    simp [parseSecondaryLimitTime, hs2, hs3, hs4]
  have hreset : ParsedResponse.GetResetTime presp = some 0 := by
    have hzero : atoiIgnoreErr "" = 0 := rfl
    simp [ParsedResponse.GetResetTime, hp2, hp3, hzero]
  refine ⟨?_, hreset, ?_⟩
  · simp only [SecondaryRateLimiter.roundTripOnce, hs1, hsec]
  · have hupd : RateLimitState.Update (PrimaryRateLimiter.getRequestConfig pcfg preq).state
        (PrimaryRateLimiter.getRequestConfig pcfg preq) (ParsedResponse.GetCatgory presp)
        (ParsedResponse.GetResetTime presp) =
        { state := assocStore (PrimaryRateLimiter.getRequestConfig pcfg preq).state
                     (ParsedResponse.GetCatgory presp) (some 0),
          resetTime := some 0, events := [] } := by
      simp [RateLimitState.Update, hreset, hp5]
    simp only [PrimaryRateLimiter.RoundTrip, hp4, PrimaryRateLimiter.forward, hp1, hupd]
    simp

/-- C6 witness: the amended theorem applied to concrete responses — a
secondary-limit 403 with no reset headers passes through the secondary
interceptor unchanged, while a primary 403 with `x-ratelimit-remaining: 0`
and no `x-ratelimit-reset` produces reset 0 and the typed error. -/
theorem missing_reset_headers_behavior_witness :
    SecondaryRateLimiter.roundTripOnce SecondaryConfig.zero
      (fun _ => Except.ok respSecondaryNoHeaders) parseSecondaryAlways
      (SecState.mk none 3) reqPlain 0 0 0 0 =
      SecStepResult.done respSecondaryNoHeaders (SecState.mk none 3) [] ∧
    ParsedResponse.GetResetTime respPrimaryNoReset = some 0 ∧
    PrimaryRateLimiter.RoundTrip cfgPrimaryFresh
      (fun _ => Except.ok respPrimaryNoReset) reqPlain =
      { resp := none,
        err := some { resetTime := some (SecondsSinceEpoch.AsTime 0),
                      request := some reqPlain, response := some respPrimaryNoReset,
                      category := ParsedResponse.GetCatgory respPrimaryNoReset },
        transportErr := none, baseInvoked := true,
        state := assocStore (PrimaryRateLimiter.getRequestConfig cfgPrimaryFresh reqPlain).state
                   (ParsedResponse.GetCatgory respPrimaryNoReset) (some 0),
        events := triggerPrimary
          (PrimaryRateLimiter.getRequestConfig cfgPrimaryFresh reqPlain).onLimitReached
          PrimaryEvent.limitReached } :=
  missing_reset_headers_behavior SecondaryConfig.zero
    (fun _ => Except.ok respSecondaryNoHeaders) parseSecondaryAlways
    (SecState.mk none 3) reqPlain 0 0 0 0 respSecondaryNoHeaders
    rfl (by decide) (by decide) (by decide)
    cfgPrimaryFresh (fun _ => Except.ok respPrimaryNoReset) reqPlain respPrimaryNoReset none
    rfl (by decide) (by decide) (by decide) (by decide)
